import Mathlib

set_option maxHeartbeats 1000000

/-!
Shallow embedding of the authentication and session-lifecycle subsystem of the
nodejs-express-template repository.

Two schema variants coexist in the repository and both are embedded here:
* the boolean-flag user schema (src/src/models/user.model.ts) used by
  src/src/services/auth.service.ts, embedded as `UserDoc` together with the
  `AuthService` operations; and
* the status-enum user schema (src/unnamed/part_002), embedded as `UserDocV2`.

Timestamps are epoch milliseconds modelled as `Nat`.  The external collaborators
(bcryptjs, node crypto, jsonwebtoken, the email notifier) are modelled as
deterministic functions of an explicit freshness counter `sig`, standing for the
issued-at instants and random draws that make successive outputs distinct.
-/

/-- Milliseconds in one day. -/
def dayMs : Nat := 86400000

/-- JWT_REFRESH_EXPIRES_IN default 30d (environment config). -/
def jwtRefreshExpiresInMs : Nat := 30 * dayMs

/-- JWT_EXPIRES_IN default 7d (environment config). -/
def jwtExpiresInMs : Nat := 7 * dayMs

/-- PASSWORD_RESET_EXPIRES default 3600000 ms, one hour (environment config). -/
def passwordResetExpiresMs : Nat := 3600000

/-- config.security.emailVerificationExpires: the verification-token TTL read from
configuration; modelled as 24 hours.  No claim depends on its value. -/
def emailVerificationExpiresMs : Nat := 24 * 3600000

/-- Model of the JavaScript toLowerCase used for email and username folding
(also the mongoose lowercase schema option): lowercase every character. -/
def toLowerCase (s : String) : String := ⟨s.data.map Char.toLower⟩

/-- Typed error carrying a human-readable message and an HTTP status code
(src/src/lib/errors/auth.error.ts, class AppError). -/
structure AppError where
  message : String
  statusCode : Nat
deriving DecidableEq, Repr

deriving instance DecidableEq for Except

/-- Model of a refresh token signed by the external jsonwebtoken library
(src/src/lib/jwt/jwt.service.ts, generateRefreshToken).  The repository treats
tokens as opaque signed strings compared by equality; the model keeps the signed
claims: the subject userId, the expiry instant, and the issuance counter value
standing for the issued-at claim, which makes successive signatures distinct. -/
structure RefreshJwt where
  userId : String
  issuedSig : Nat
  expiresAt : Nat
deriving DecidableEq, Repr

/-- Model of an access token (jwt.service.ts, generateAccessToken): embeds
userId, email, role and username. -/
structure AccessJwt where
  userId : String
  email : String
  role : String
  username : String
  issuedSig : Nat
  expiresAt : Nat
deriving DecidableEq, Repr

/-- The token pair returned by the auth service (IAuthTokens). -/
structure AuthTokens where
  accessToken : AccessJwt
  refreshToken : RefreshJwt
deriving DecidableEq, Repr

/-- jwt.service.ts generateAccessToken: sign the identity claims with the access
TTL.  The counter value sig stands for the issued-at instant of this signature. -/
def JWTService.generateAccessToken (userId email role username : String)
    (now sig : Nat) : AccessJwt :=
  ⟨userId, email, role, username, sig, now + jwtExpiresInMs⟩

/-- jwt.service.ts generateRefreshToken: sign a payload holding only the userId
with the refresh TTL. -/
def JWTService.generateRefreshToken (userId : String) (now sig : Nat) : RefreshJwt :=
  ⟨userId, sig, now + jwtRefreshExpiresInMs⟩

/-- jwt.service.ts verifyRefreshToken: jwt.verify fails with TokenExpiredError
(mapped to a 401 AppError) when the expiry claim is not in the future; otherwise
the decoded payload, here its userId, is returned.  The model ranges over tokens
this server signed, so signature validity holds by construction. -/
def JWTService.verifyRefreshToken (t : RefreshJwt) (now : Nat) : Except AppError String :=
  if t.expiresAt ≤ now then .error ⟨"Refresh token expired", 401⟩
  else .ok t.userId

/-- Model of the external bcryptjs hash (crypto.utils.ts hashPassword): a
deterministic tagged copy, so that compare recognises exactly the hashed
password. -/
def hashPassword (password : String) : String := "bcrypt$" ++ password

/-- crypto.utils.ts comparePassword via bcrypt.compare: true iff the plain
password hashes to the stored hash. -/
def comparePassword (password hash : String) : Bool := hash == hashPassword password

/-- crypto.utils.ts hashToken: SHA-256 digest of the raw token, modelled as an
injective tagged copy. -/
def hashToken (token : String) : String := "sha256$" ++ token

/-- crypto.utils.ts generateSecureToken: cryptographically secure random hex
string; modelled as a fresh draw from the counter, so no two draws at different
counter values coincide. -/
def generateSecureToken (sig : Nat) : String := "rnd" ++ toString sig

/-- The record returned by generateVerificationToken / generatePasswordResetToken
(crypto.utils.ts): the raw token, its one-way hash, and the expiry instant. -/
structure GeneratedToken where
  token : String
  hashedToken : String
  expiresAt : Nat
deriving DecidableEq, Repr

/-- crypto.utils.ts generateVerificationToken. -/
def generateVerificationToken (now sig : Nat) : GeneratedToken :=
  let t := generateSecureToken sig
  ⟨t, hashToken t, now + emailVerificationExpiresMs⟩

/-- crypto.utils.ts generatePasswordResetToken. -/
def generatePasswordResetToken (now sig : Nat) : GeneratedToken :=
  let t := generateSecureToken sig
  ⟨t, hashToken t, now + passwordResetExpiresMs⟩

/-- One entry of a user's stored refresh-token list (user.model.ts refreshTokens
sub-schema): the signed token, its creation instant, and the store expiry. -/
structure RefreshTokenEntry where
  token : RefreshJwt
  createdAt : Nat
  expiresAt : Nat
deriving DecidableEq, Repr

/-- A passively stored OAuth provider record (user.model.ts OAuthProviderSchema). -/
structure OAuthProvider where
  provider : String
  providerId : String
  email : String
  connectedAt : Nat
deriving DecidableEq, Repr

/-- The persisted user document of the boolean-flag schema
(src/src/models/user.model.ts with src/src/models/user.types.ts). -/
structure UserDoc where
  id : String
  name : String
  username : String
  email : String
  passwordHash : String
  role : String
  emailVerified : Bool
  isActive : Bool
  isBlocked : Bool
  deletionRequestedAt : Option Nat
  lastLogin : Option Nat
  onboardingCompleted : Bool
  oauthProviders : List OAuthProvider
  emailVerificationToken : Option String
  emailVerificationExpiry : Option Nat
  resetToken : Option String
  resetTokenExpiry : Option Nat
  refreshTokens : List RefreshTokenEntry
deriving DecidableEq, Repr

/-- UserSchema.methods.isValidRefreshToken (user.model.ts 183-190): membership of
the presented token by exact equality, with the entry expiry strictly in the
future. -/
def UserDoc.isValidRefreshToken (u : UserDoc) (t : RefreshJwt) (now : Nat) : Bool :=
  u.refreshTokens.any fun rt => rt.token == t && decide (now < rt.expiresAt)

/-- UserSchema.methods.addRefreshToken (user.model.ts 192-207): when the list
already holds 5 or more entries the oldest entry (the head) is shifted off, then
the new entry is pushed at the end. -/
def UserDoc.addRefreshToken (u : UserDoc) (t : RefreshJwt) (expiresAt now : Nat) : UserDoc :=
  let ts := if 5 ≤ u.refreshTokens.length then u.refreshTokens.tail else u.refreshTokens
  { u with refreshTokens := ts ++ [⟨t, now, expiresAt⟩] }

/-- UserSchema.methods.removeRefreshToken (user.model.ts 209-215): delete every
entry whose token equals the presented one. -/
def UserDoc.removeRefreshToken (u : UserDoc) (t : RefreshJwt) : UserDoc :=
  { u with refreshTokens := u.refreshTokens.filter fun rt => rt.token != t }

/-- The pre-save middleware (user.model.ts 156-161): on every save, entries whose
expiry is not strictly in the future are pruned. -/
def UserDoc.preSave (u : UserDoc) (now : Nat) : UserDoc :=
  { u with refreshTokens := u.refreshTokens.filter fun rt => decide (now < rt.expiresAt) }

/-- Model of the storage collaborator: the users collection in natural
(insertion) order.  findOne scans in order and returns the first match. -/
def saveUser (db : List UserDoc) (u : UserDoc) (now : Nat) : List UserDoc :=
  db.map fun v => if v.id = u.id then u.preSave now else v

/-- Fresh Mongo ObjectId for a created document, drawn from the counter. -/
def freshId (sig : Nat) : String := "id" ++ toString sig

/-- The outcome of one service operation: the result or typed error, the
collection as persisted at that point (saves that happened before a throw are
kept, matching the source where a thrown AppError does not roll back prior
await user.save() calls), and the advanced freshness counter. -/
structure OpResult (α : Type) where
  result : Except AppError α
  db : List UserDoc
  sig : Nat

/-- AuthService.generateTokens (auth.service.ts 419-440): sign an access and a
refresh token, append the refresh token to the user with a 30-day store expiry
(dayjs add 30 days), and save the user.  Returns the pair, the in-memory user
after the save hook, the persisted collection, and the advanced counter. -/
def AuthService.generateTokens (u : UserDoc) (db : List UserDoc) (now sig : Nat) :
    AuthTokens × UserDoc × List UserDoc × Nat :=
  let accessToken := JWTService.generateAccessToken u.id u.email u.role u.username now sig
  let refreshToken := JWTService.generateRefreshToken u.id now (sig + 1)
  let u1 := u.addRefreshToken refreshToken (now + 30 * dayMs) now
  (⟨accessToken, refreshToken⟩, u1.preSave now, saveUser db u1 now, sig + 2)

/-- AuthService.register (auth.service.ts 27-95): reject when an account with
the same lowercased email or username exists (email message when the found
account carries the requested email, username message otherwise); otherwise hash
the password, create the account with a hashed verification token, save it, and
issue a token pair.  The email send result only changes the success message, so
it is not modelled. -/
def AuthService.register (db : List UserDoc) (name username email password : String)
    (now sig : Nat) : OpResult AuthTokens :=
  match db.find? (fun u => u.email == toLowerCase email || u.username == toLowerCase username) with
  | some existingUser =>
    if existingUser.email == toLowerCase email then
      ⟨.error ⟨"User with this email already exists", 409⟩, db, sig⟩
    else
      ⟨.error ⟨"User with this username already exists", 409⟩, db, sig⟩
  | none =>
    let passwordHash := hashPassword password
    let gt := generateVerificationToken now sig
    let user : UserDoc :=
      { id := freshId (sig + 1), name := name, username := toLowerCase username,
        email := toLowerCase email, passwordHash := passwordHash, role := "user",
        emailVerified := false, isActive := true, isBlocked := false,
        deletionRequestedAt := none, lastLogin := none, onboardingCompleted := false,
        oauthProviders := [], emailVerificationToken := some gt.hashedToken,
        emailVerificationExpiry := some gt.expiresAt, resetToken := none,
        resetTokenExpiry := none, refreshTokens := [] }
    let db1 := db ++ [user.preSave now]
    let (tokens, _, db2, sig2) := AuthService.generateTokens user db1 now (sig + 2)
    ⟨.ok tokens, db2, sig2⟩

/-- AuthService.login (auth.service.ts 97-154): look up by lowercased email or
username; fail on missing account, unverified email, inactive or blocked flags,
or wrong password; otherwise stamp lastLogin, save, and issue a token pair. -/
def AuthService.login (db : List UserDoc) (identifier password : String)
    (now sig : Nat) : OpResult AuthTokens :=
  match db.find? (fun u => u.email == toLowerCase identifier || u.username == toLowerCase identifier) with
  | none => ⟨.error ⟨"Invalid credentials", 401⟩, db, sig⟩
  | some user =>
    if !user.emailVerified then
      ⟨.error ⟨"Email not verified", 403⟩, db, sig⟩
    else if !user.isActive then
      ⟨.error ⟨"Account is deactivated. Please contact support", 403⟩, db, sig⟩
    else if user.isBlocked then
      ⟨.error ⟨"Account is blocked. Please contact support", 403⟩, db, sig⟩
    else if !comparePassword password user.passwordHash then
      ⟨.error ⟨"Invalid credentials", 401⟩, db, sig⟩
    else
      let u1 := { user with lastLogin := some now }
      let db1 := saveUser db u1 now
      let (tokens, _, db2, sig2) := AuthService.generateTokens (u1.preSave now) db1 now sig
      ⟨.ok tokens, db2, sig2⟩

/-- AuthService.refreshToken (auth.service.ts 156-193): verify the signed token,
load the account by the embedded userId, require membership in the stored set
and the isActive flag (the isBlocked flag is not consulted), then issue a new
pair, save, remove the presented token and save again. -/
def AuthService.refreshToken (db : List UserDoc) (token : RefreshJwt)
    (now sig : Nat) : OpResult AuthTokens :=
  match JWTService.verifyRefreshToken token now with
  | .error e => ⟨.error e, db, sig⟩
  | .ok userId =>
    match db.find? (fun u => u.id == userId) with
    | none => ⟨.error ⟨"Invalid refresh token", 401⟩, db, sig⟩
    | some user =>
      if !user.isValidRefreshToken token now then
        ⟨.error ⟨"Invalid refresh token", 401⟩, db, sig⟩
      else if !user.isActive then
        ⟨.error ⟨"Account is deactivated", 403⟩, db, sig⟩
      else
        let (tokens, u2, db2, sig2) := AuthService.generateTokens user db now sig
        let u3 := u2.removeRefreshToken token
        ⟨.ok tokens, saveUser db2 u3 now, sig2⟩

/-- AuthService.changePassword (auth.service.ts 215-253): load by id, verify the
current password (401 on mismatch, nothing saved), then store the new hash,
clear ALL refresh tokens, and save. -/
def AuthService.changePassword (db : List UserDoc) (userId currentPassword newPassword : String)
    (now sig : Nat) : OpResult String :=
  match db.find? (fun u => u.id == userId) with
  | none => ⟨.error ⟨"User not found", 404⟩, db, sig⟩
  | some user =>
    if !comparePassword currentPassword user.passwordHash then
      ⟨.error ⟨"Current password is incorrect", 401⟩, db, sig⟩
    else
      let u1 := { user with passwordHash := hashPassword newPassword, refreshTokens := [] }
      ⟨.ok "Password changed successfully", saveUser db u1 now, sig⟩

/-- The findOne predicate of AuthService.verifyEmail: stored hashed verification
token equals the hash of the presented token, and the stored expiry is strictly
in the future (Mongo gt on the expiry field; a missing expiry never matches). -/
def verificationMatches (hashed : String) (now : Nat) (u : UserDoc) : Bool :=
  u.emailVerificationToken == some hashed &&
    match u.emailVerificationExpiry with
    | some e => decide (now < e)
    | none => false

/-- AuthService.verifyEmail (auth.service.ts 269-299): hash the presented token,
find an account whose stored verification token matches with unexpired TTL (404
otherwise), then set emailVerified, clear the token and expiry slots, save. -/
def AuthService.verifyEmail (db : List UserDoc) (token : String)
    (now sig : Nat) : OpResult String :=
  let hashedToken := hashToken token
  match db.find? (verificationMatches hashedToken now) with
  | none =>
    ⟨.error ⟨"Invalid or expired verification token. Please request a new verification email.",
      404⟩, db, sig⟩
  | some user =>
    let u1 := { user with emailVerified := true, emailVerificationExpiry := none,
                          emailVerificationToken := none }
    ⟨.ok "Email verified successfully", saveUser db u1 now, sig⟩

/-- AuthService.resendVerification (auth.service.ts 321-355): 404 when no account
has the email, 400 when already verified; otherwise persist a freshly generated
hashed token and expiry, save, and only then attempt the email send; a send
failure raises a 500 error after the save. -/
def AuthService.resendVerification (db : List UserDoc) (email : String)
    (sendOk : Bool) (now sig : Nat) : OpResult String :=
  match db.find? (fun u => u.email == toLowerCase email) with
  | none => ⟨.error ⟨"User not found with this email.", 404⟩, db, sig⟩
  | some user =>
    if user.emailVerified then
      ⟨.error ⟨"Email is already verified.", 400⟩, db, sig⟩
    else
      let gt := generateVerificationToken now sig
      let u1 := { user with emailVerificationToken := some gt.hashedToken,
                            emailVerificationExpiry := some gt.expiresAt }
      let db1 := saveUser db u1 now
      if sendOk then ⟨.ok "Verification email resent successfully.", db1, sig + 1⟩
      else ⟨.error ⟨"Failed to send verification email.", 500⟩, db1, sig + 1⟩

/-- AuthService.forgotPassword (auth.service.ts 357-385): 404 when no account has
the email; otherwise persist a freshly generated hashed reset token and expiry,
save, then attempt the email send; a send failure raises a 500 error after the
save. -/
def AuthService.forgotPassword (db : List UserDoc) (email : String)
    (sendOk : Bool) (now sig : Nat) : OpResult String :=
  match db.find? (fun u => u.email == toLowerCase email) with
  | none => ⟨.error ⟨"User not found with this email.", 404⟩, db, sig⟩
  | some user =>
    let gt := generatePasswordResetToken now sig
    let u1 := { user with resetToken := some gt.hashedToken,
                          resetTokenExpiry := some gt.expiresAt }
    let db1 := saveUser db u1 now
    if sendOk then ⟨.ok "Password reset email sent successfully.", db1, sig + 1⟩
    else ⟨.error ⟨"Failed to send password reset email.", 500⟩, db1, sig + 1⟩

/-- The findOne predicate of AuthService.resetPassword: stored hashed reset token
matches and its expiry is strictly in the future. -/
def resetMatches (hashed : String) (now : Nat) (u : UserDoc) : Bool :=
  u.resetToken == some hashed &&
    match u.resetTokenExpiry with
    | some e => decide (now < e)
    | none => false

/-- AuthService.resetPassword (auth.service.ts 387-417): find the account by the
hashed reset token with unexpired TTL (404 otherwise), store the new password
hash, clear the reset slot, save. -/
def AuthService.resetPassword (db : List UserDoc) (token password : String)
    (now sig : Nat) : OpResult String :=
  let hashedToken := hashToken token
  match db.find? (resetMatches hashedToken now) with
  | none => ⟨.error ⟨"Invalid or expired reset token", 404⟩, db, sig⟩
  | some user =>
    let u1 := { user with passwordHash := hashPassword password, resetToken := none,
                          resetTokenExpiry := none }
    ⟨.ok "Password reset successfully", saveUser db u1 now, sig⟩

/-- The unified account status enum (src/src/models/user.types.ts, UserStatus). -/
inductive UserStatus
  | active
  | inactive
  | blocked
  | suspended
  | pendingVerification
  | deletionRequested
  | deleted
deriving DecidableEq, Repr

/-- The persisted user document of the status-enum schema (src/unnamed/part_002). -/
structure UserDocV2 where
  id : String
  name : String
  username : String
  email : String
  passwordHash : String
  role : String
  emailVerified : Bool
  status : UserStatus
  deletionRequestedAt : Option Nat
  deletionReason : Option String
  deactivationReason : Option String
  lastLogin : Option Nat
  onboardingCompleted : Bool
  oauthProviders : List OAuthProvider
  emailVerificationToken : Option String
  emailVerificationExpiry : Option Nat
  resetToken : Option String
  resetTokenExpiry : Option Nat
  refreshTokens : List RefreshTokenEntry
deriving DecidableEq, Repr

/-- UserSchema.methods.isDeletionExpired (part_002 177-184): false when no
deletion was requested; otherwise thirtyDaysAgo is the current instant minus 30
days and the request is expired when it lies at or before that instant.  JS date
arithmetic can go below zero, so the comparison is taken over Int. -/
def UserDocV2.isDeletionExpired (u : UserDocV2) (now : Nat) : Bool :=
  match u.deletionRequestedAt with
  | none => false
  | some t => decide ((t : Int) ≤ (now : Int) - (30 * dayMs : Nat))

/-- UserSchema.methods.canLogin (part_002 160-167): an account with a pending,
unexpired deletion request can log in when its email is verified; otherwise the
status must be in the singleton list holding active and the email verified. -/
def UserDocV2.canLogin (u : UserDocV2) (now : Nat) : Bool :=
  if u.status == UserStatus.deletionRequested && !u.isDeletionExpired now then
    u.emailVerified
  else
    [UserStatus.active].contains u.status && u.emailVerified

/-- UserSchema.methods.deactivate (part_002 201-206): set status to inactive and,
when a reason is given, record it; nothing else changes. -/
def UserDocV2.deactivate (u : UserDocV2) (reason : Option String) : UserDocV2 :=
  let u1 := { u with status := UserStatus.inactive }
  match reason with
  | some r => { u1 with deactivationReason := some r }
  | none => u1

/-- UserSchema.methods.block (part_002 208-214): set status to blocked, record
the reason when given, and clear the refresh-token list. -/
def UserDocV2.block (u : UserDocV2) (reason : Option String) : UserDocV2 :=
  let u1 := { u with status := UserStatus.blocked }
  let u2 := match reason with
    | some r => { u1 with deactivationReason := some r }
    | none => u1
  { u2 with refreshTokens := [] }

/-- UserSchema.methods.addRefreshToken of the status-enum schema (part_002
312-326), textually identical to the boolean-schema method. -/
def UserDocV2.addRefreshToken (u : UserDocV2) (t : RefreshJwt) (expiresAt now : Nat) : UserDocV2 :=
  let ts := if 5 ≤ u.refreshTokens.length then u.refreshTokens.tail else u.refreshTokens
  { u with refreshTokens := ts ++ [⟨t, now, expiresAt⟩] }

/-! ### Concrete documents and runs used by witnesses and counterexamples -/

/-- A baseline verified, active, unblocked account with no stored tokens. -/
def baseUser : UserDoc :=
  { id := "a", name := "n", username := "alice", email := "a@x.io",
    passwordHash := hashPassword "pw", role := "user", emailVerified := true,
    isActive := true, isBlocked := false, deletionRequestedAt := none,
    lastLogin := none, onboardingCompleted := false, oauthProviders := [],
    emailVerificationToken := none, emailVerificationExpiry := none,
    resetToken := none, resetTokenExpiry := none, refreshTokens := [] }

/-- A refresh token signed for baseUser at counter 0, expiring at instant 100. -/
def tok0 : RefreshJwt := ⟨"a", 0, 100⟩

/-- baseUser holding tok0 as its single stored refresh token. -/
def userWithTok0 : UserDoc :=
  { baseUser with refreshTokens := [⟨tok0, 0, 100⟩] }

/-- One login step of the six-login run: log baseUser's account in with the
correct password at instant 0, threading the collection and the counter. -/
def loginStep (s : List UserDoc × Nat) : List UserDoc × Nat :=
  let o := AuthService.login s.1 "alice" "pw" 0 s.2
  (o.db, o.sig)

/-- The collection and counter after k successive logins starting from the
singleton collection holding baseUser and counter 0. -/
def loginIter : Nat → List UserDoc × Nat
  | 0 => ([baseUser], 0)
  | k + 1 => loginStep (loginIter k)

/-- A blocked account whose isActive flag is still set, holding tok0: the state
an administrative block produces in the boolean schema (user.controller.ts
blockUser sets isBlocked without touching isActive or the token list). -/
def blockedUser : UserDoc :=
  { userWithTok0 with isBlocked := true }

/-- An account owning the email that a conflicting registration will request. -/
def emailOwner : UserDoc :=
  { baseUser with id := "b", username := "bob", email := "taken@x.io" }

/-- An account owning the username that the same registration will request,
stored ahead of emailOwner in natural order. -/
def usernameOwner : UserDoc :=
  { baseUser with id := "c", username := "carol", email := "c@x.io" }

/-- baseUser with a pending hashed verification token expiring at instant 50. -/
def unverifiedUser : UserDoc :=
  { baseUser with
    emailVerified := false
    emailVerificationToken := some (hashToken "raw")
    emailVerificationExpiry := some 50 }

/-- baseUser holding five distinct unexpired refresh tokens, signed at counter
values 0 through 4, all expiring at instant 100. -/
def fullUser : UserDoc :=
  { baseUser with refreshTokens :=
      [⟨⟨"a", 0, 100⟩, 0, 100⟩, ⟨⟨"a", 1, 100⟩, 0, 100⟩, ⟨⟨"a", 2, 100⟩, 0, 100⟩,
       ⟨⟨"a", 3, 100⟩, 0, 100⟩, ⟨⟨"a", 4, 100⟩, 0, 100⟩] }

/-- A baseline account of the status-enum schema with a pending deletion
request stamped at instant 0. -/
def baseUserV2 : UserDocV2 :=
  { id := "a", name := "n", username := "alice", email := "a@x.io",
    passwordHash := hashPassword "pw", role := "user", emailVerified := true,
    status := UserStatus.deletionRequested, deletionRequestedAt := some 0,
    deletionReason := none, deactivationReason := none, lastLogin := none,
    onboardingCompleted := false, oauthProviders := [],
    emailVerificationToken := none, emailVerificationExpiry := none,
    resetToken := none, resetTokenExpiry := none,
    refreshTokens := [⟨tok0, 0, 100⟩] }

/-! ### Basic facts about the embedded operations -/

theorem UserDoc.preSave_id (u : UserDoc) (now : Nat) : (u.preSave now).id = u.id := rfl

theorem UserDoc.preSave_refreshTokens (u : UserDoc) (now : Nat) :
    (u.preSave now).refreshTokens =
      u.refreshTokens.filter fun rt => decide (now < rt.expiresAt) := rfl

theorem UserDoc.removeRefreshToken_refreshTokens (u : UserDoc) (t : RefreshJwt) :
    (u.removeRefreshToken t).refreshTokens =
      u.refreshTokens.filter fun rt => rt.token != t := rfl

/-- Membership with unexpired entry characterises isValidRefreshToken. -/
theorem isValidRefreshToken_iff (u : UserDoc) (t : RefreshJwt) (now : Nat) :
    u.isValidRefreshToken t now = true ↔
      ∃ rt ∈ u.refreshTokens, rt.token = t ∧ now < rt.expiresAt := by
  simp [UserDoc.isValidRefreshToken, List.any_eq_true]

/-- Saving a document whose id equals the id of the first document matching a
predicate, when the saved document still matches, makes the saved document the
first match of the persisted collection. -/
theorem find?_saveUser (p : UserDoc → Bool) (db : List UserDoc) (u w : UserDoc) (now : Nat)
    (hfind : db.find? p = some u) (hid : w.id = u.id) (hp : p (w.preSave now) = true) :
    (saveUser db w now).find? p = some (w.preSave now) := by
  induction db with
  | nil => simp at hfind
  | cons a l ih =>
    by_cases ha : p a = true
    · rw [List.find?_cons_of_pos _ ha] at hfind
      have hau : a = u := Option.some.inj hfind
      have haw : a.id = w.id := by rw [hau, hid]
      simp only [saveUser, List.map_cons]
      rw [if_pos haw]
      exact List.find?_cons_of_pos _ hp
    · rw [List.find?_cons_of_neg _ (by simpa using ha)] at hfind
      simp only [saveUser, List.map_cons]
      by_cases haw : a.id = w.id
      · rw [if_pos haw]
        exact List.find?_cons_of_pos _ hp
      · rw [if_neg haw]
        rw [List.find?_cons_of_neg _ (by simpa using ha)]
        exact ih hfind

/-- Every member of the persisted collection after a save is the saved document
or an untouched document with a different id. -/
theorem mem_saveUser {db : List UserDoc} {w v : UserDoc} {now : Nat}
    (hv : v ∈ saveUser db w now) : v = w.preSave now ∨ (v ∈ db ∧ v.id ≠ w.id) := by
  simp only [saveUser, List.mem_map] at hv
  obtain ⟨x, hx, hfx⟩ := hv
  by_cases h : x.id = w.id
  · rw [if_pos h] at hfx
    exact Or.inl hfx.symm
  · rw [if_neg h] at hfx
    exact Or.inr ⟨hfx ▸ hx, hfx ▸ h⟩

/-- A refresh call always fails with a 401 error when the account addressed by
the presented token, if any, does not hold the token as a valid entry. -/
theorem refreshToken_401_of_not_stored (db : List UserDoc) (t : RefreshJwt) (now sig : Nat)
    (h : ∀ u, db.find? (fun v => v.id == t.userId) = some u →
      u.isValidRefreshToken t now = false) :
    ∃ e, (AuthService.refreshToken db t now sig).result = .error e ∧ e.statusCode = 401 := by
  unfold AuthService.refreshToken JWTService.verifyRefreshToken
  by_cases hexp : t.expiresAt ≤ now
  · rw [if_pos hexp]
    exact ⟨_, rfl, rfl⟩
  · rw [if_neg hexp]
    cases hf : db.find? (fun v => v.id == t.userId) with
    | none =>
      refine ⟨⟨"Invalid refresh token", 401⟩, ?_, rfl⟩
      simp only [hf]
    | some u =>
      refine ⟨⟨"Invalid refresh token", 401⟩, ?_, rfl⟩
      simp only [hf, h u hf, Bool.not_false, if_true]

/-- When no stored entry carries the token, isValidRefreshToken is false. -/
theorem isValidRefreshToken_false (u : UserDoc) (t : RefreshJwt) (now : Nat)
    (h : ∀ rt ∈ u.refreshTokens, rt.token ≠ t) :
    u.isValidRefreshToken t now = false := by
  simp only [UserDoc.isValidRefreshToken, List.any_eq_false]
  intro rt hrt
  simp [h rt hrt]

/-- The successful refresh path, fully evaluated: a new pair is issued, the user
is saved with the appended refresh token, and saved again after removing the
presented token. -/
theorem refreshToken_success (db : List UserDoc) (t : RefreshJwt) (u : UserDoc) (now sig : Nat)
    (hfind : db.find? (fun v => v.id == t.userId) = some u)
    (hjwt : now < t.expiresAt)
    (hvalid : u.isValidRefreshToken t now = true)
    (hactive : u.isActive = true) :
    AuthService.refreshToken db t now sig =
      ⟨.ok ⟨JWTService.generateAccessToken u.id u.email u.role u.username now sig,
            JWTService.generateRefreshToken u.id now (sig + 1)⟩,
        saveUser
          (saveUser db
            (u.addRefreshToken (JWTService.generateRefreshToken u.id now (sig + 1))
              (now + 30 * dayMs) now) now)
          (((u.addRefreshToken (JWTService.generateRefreshToken u.id now (sig + 1))
              (now + 30 * dayMs) now).preSave now).removeRefreshToken t) now,
        sig + 2⟩ := by
  unfold AuthService.refreshToken JWTService.verifyRefreshToken
  rw [if_neg (by omega)]
  simp only [hfind, hvalid, hactive, Bool.not_true, AuthService.generateTokens]
  rfl

/-- C1: for every account and raw refresh token present in the account's stored
set and unexpired, refreshing on an active account succeeds and returns a new
pair whose refresh token differs from the presented one; afterwards the
presented token is no longer stored, and presenting it a second time fails with
a 401 Unauthorized error — no refresh token is ever accepted twice.  The counter
hypothesis states that every stored token was signed before the current counter
value, the freshness invariant of the signing model. -/
theorem c1_refresh_rotation_single_use
    (db : List UserDoc) (t : RefreshJwt) (u : UserDoc) (now sig : Nat)
    (hfind : db.find? (fun v => v.id == t.userId) = some u)
    (hjwt : now < t.expiresAt)
    (hvalid : u.isValidRefreshToken t now = true)
    (hactive : u.isActive = true)
    (hfresh : ∀ rt ∈ u.refreshTokens, rt.token.issuedSig < sig) :
    ∃ tokens db2,
      AuthService.refreshToken db t now sig = ⟨.ok tokens, db2, sig + 2⟩ ∧
      tokens.refreshToken ≠ t ∧
      (∃ u2, db2.find? (fun v => v.id == t.userId) = some u2 ∧
        ∀ rt ∈ u2.refreshTokens, rt.token ≠ t) ∧
      (∀ now2 sig2, ∃ e,
        (AuthService.refreshToken db2 t now2 sig2).result = .error e ∧
          e.statusCode = 401) := by
  have heq := refreshToken_success db t u now sig hfind hjwt hvalid hactive
  have hpu : (u.id == t.userId) = true := by
    have h := List.find?_some hfind
    simpa using h
  set r2 := JWTService.generateRefreshToken u.id now (sig + 1) with hr2
  set u1 := u.addRefreshToken r2 (now + 30 * dayMs) now with hu1
  set u3 := (u1.preSave now).removeRefreshToken t with hu3
  have hne : r2 ≠ t := by
    obtain ⟨rt, hrt, hrtt, _⟩ := (isValidRefreshToken_iff u t now).mp hvalid
    have hlt := hfresh rt hrt
    intro hcon
    have : r2.issuedSig = t.issuedSig := by rw [hcon]
    rw [hrtt] at hlt
    simp only [hr2, JWTService.generateRefreshToken] at this
    omega
  have hgone : ∀ rt ∈ (u3.preSave now).refreshTokens, rt.token ≠ t := by
    intro rt hrt
    simp only [hu3, UserDoc.preSave, UserDoc.removeRefreshToken, List.mem_filter] at hrt
    simpa using hrt.1.2
  have find1 : (saveUser db u1 now).find? (fun v => v.id == t.userId) =
      some (u1.preSave now) := by
    apply find?_saveUser _ db u u1 now hfind
    · rfl
    · simpa using hpu
  have find2 : (saveUser (saveUser db u1 now) u3 now).find? (fun v => v.id == t.userId) =
      some (u3.preSave now) := by
    apply find?_saveUser _ _ (u1.preSave now) u3 now find1
    · rfl
    · simpa using hpu
  refine ⟨_, _, heq, hne, ⟨u3.preSave now, find2, hgone⟩, ?_⟩
  intro now2 sig2
  apply refreshToken_401_of_not_stored
  intro u' hfind'
  rw [find2] at hfind'
  have : u' = u3.preSave now := (Option.some.inj hfind').symm
  rw [this]
  exact isValidRefreshToken_false _ _ _ hgone

/-- Witness for C1: the rotation theorem applied to a singleton collection
holding an active account with one stored, unexpired refresh token. -/
theorem c1_refresh_rotation_single_use_witness :
    ∃ tokens db2,
      AuthService.refreshToken [userWithTok0] tok0 1 1 = ⟨.ok tokens, db2, 1 + 2⟩ ∧
      tokens.refreshToken ≠ tok0 ∧
      (∃ u2, db2.find? (fun v => v.id == tok0.userId) = some u2 ∧
        ∀ rt ∈ u2.refreshTokens, rt.token ≠ tok0) ∧
      (∀ now2 sig2, ∃ e,
        (AuthService.refreshToken db2 tok0 now2 sig2).result = .error e ∧
          e.statusCode = 401) :=
  c1_refresh_rotation_single_use [userWithTok0] tok0 userWithTok0 1 1
    (by decide) (by decide) (by decide) (by decide) (by decide)

/-- C2: addRefreshToken preserves the five-entry cap, and at the cap it evicts
the oldest (first) entry before appending the new one; consequently, after six
successful logins for one account (the loginIter run) the stored set holds
exactly five entries and the token signed at the first login (counter value 1)
is no longer present. -/
theorem c2_refresh_cap_fifo :
    (∀ (u : UserDoc) (t : RefreshJwt) (e n : Nat),
      (u.refreshTokens.length ≤ 5 →
        (u.addRefreshToken t e n).refreshTokens.length ≤ 5) ∧
      (u.refreshTokens.length = 5 →
        (u.addRefreshToken t e n).refreshTokens =
          u.refreshTokens.tail ++ [⟨t, n, e⟩])) ∧
    ((List.range 6).all fun k =>
      (AuthService.login (loginIter k).1 "alice" "pw" 0 (loginIter k).2).result.isOk) = true ∧
    (∃ u, (loginIter 6).1.find? (fun v => v.id == "a") = some u ∧
      u.refreshTokens.length = 5 ∧
      ∀ rt ∈ u.refreshTokens, rt.token ≠ ⟨"a", 1, jwtRefreshExpiresInMs⟩) := by
  refine ⟨?_, by decide, by decide⟩
  intro u t e n
  constructor
  · intro h
    simp only [UserDoc.addRefreshToken]
    by_cases h5 : 5 ≤ u.refreshTokens.length
    · rw [if_pos h5]
      simp only [List.length_append, List.length_tail, List.length_cons, List.length_nil]
      omega
    · rw [if_neg h5]
      simp only [List.length_append, List.length_cons, List.length_nil]
      omega
  · intro h
    simp only [UserDoc.addRefreshToken]
    rw [if_pos (by omega)]

/-- Witness for C2: adding a token to an account already holding five entries
stays at the cap and shifts out the oldest entry. -/
theorem c2_refresh_cap_fifo_witness :
    (fullUser.addRefreshToken tok0 100 0).refreshTokens.length ≤ 5 ∧
    (fullUser.addRefreshToken tok0 100 0).refreshTokens =
      fullUser.refreshTokens.tail ++ [⟨tok0, 0, 100⟩] :=
  ⟨(c2_refresh_cap_fifo.1 fullUser tok0 100 0).1 (by decide),
   (c2_refresh_cap_fifo.1 fullUser tok0 100 0).2 (by decide)⟩

/-- Counterexample to C3 as stated: a blocked account (isBlocked true) whose
isActive flag is still set — exactly the state the administrative block
operation of the boolean schema produces — holds a valid refresh token, and the
refresh-token exchange nevertheless succeeds, because AuthService.refreshToken
checks only the isActive flag and never isBlocked. -/
theorem c3_blocked_refresh_counterexample :
    blockedUser.isBlocked = true ∧ blockedUser.isActive = true ∧
    blockedUser.isValidRefreshToken tok0 1 = true ∧
    (AuthService.refreshToken [blockedUser] tok0 1 1).result.isOk = true := by decide

/-- C3 amended: login issues tokens only when the account is verified, active
and unblocked, and fails without touching the store otherwise; the
refresh-token exchange requires only isActive == true — it fails with the
store untouched whenever isActive is false, but does not consult isBlocked. -/
theorem c3_login_refresh_state_gate (db : List UserDoc) (now sig : Nat) :
    (∀ identifier password u,
      db.find? (fun v => v.email == toLowerCase identifier ||
        v.username == toLowerCase identifier) = some u →
      ((AuthService.login db identifier password now sig).result.isOk = true →
        u.emailVerified = true ∧ u.isActive = true ∧ u.isBlocked = false) ∧
      (¬(u.emailVerified = true ∧ u.isActive = true ∧ u.isBlocked = false) →
        (AuthService.login db identifier password now sig).result.isOk = false ∧
        (AuthService.login db identifier password now sig).db = db)) ∧
    (∀ (t : RefreshJwt) u,
      db.find? (fun v => v.id == t.userId) = some u →
      ((AuthService.refreshToken db t now sig).result.isOk = true →
        u.isActive = true) ∧
      (u.isActive = false →
        (AuthService.refreshToken db t now sig).result.isOk = false ∧
        (AuthService.refreshToken db t now sig).db = db)) := by
  constructor
  · intro identifier password u hfind
    simp only [AuthService.login, hfind]
    cases hev : u.emailVerified <;> cases hac : u.isActive <;> cases hbl : u.isBlocked <;>
      cases hcp : comparePassword password u.passwordHash <;>
      simp [hev, hac, hbl, hcp, Except.isOk, Except.toBool]
  · intro t u hfind
    simp only [AuthService.refreshToken, JWTService.verifyRefreshToken]
    by_cases hexp : t.expiresAt ≤ now
    · rw [if_pos hexp]
      simp [Except.isOk, Except.toBool]
    · rw [if_neg hexp]
      simp only [hfind]
      cases hval : u.isValidRefreshToken t now <;> cases hac : u.isActive <;>
        simp [hval, hac, Except.isOk, Except.toBool]

/-- Witness for C3 amended: an unverified account fails login with the store
untouched. -/
theorem c3_login_refresh_state_gate_witness :
    (AuthService.login [unverifiedUser] "alice" "pw" 0 0).result.isOk = false ∧
    (AuthService.login [unverifiedUser] "alice" "pw" 0 0).db = [unverifiedUser] :=
  ((c3_login_refresh_state_gate [unverifiedUser] 0 0).1 "alice" "pw" unverifiedUser
    (by decide)).2 (by decide)

/-- C5: when the presented current password does not match, changePassword
fails with a 401 error and the store is unchanged; when it matches, the stored
hash becomes the hash of the new password, the refresh-token list becomes
empty, and every refresh token addressed at this account subsequently fails
the refresh exchange with a 401 error. -/
theorem c5_change_password (db : List UserDoc)
    (userId currentPassword newPassword : String) (now sig : Nat) (u : UserDoc)
    (hfind : db.find? (fun v => v.id == userId) = some u) :
    (comparePassword currentPassword u.passwordHash = false →
      AuthService.changePassword db userId currentPassword newPassword now sig =
        ⟨.error ⟨"Current password is incorrect", 401⟩, db, sig⟩) ∧
    (comparePassword currentPassword u.passwordHash = true →
      ∃ db2,
        AuthService.changePassword db userId currentPassword newPassword now sig =
          ⟨.ok "Password changed successfully", db2, sig⟩ ∧
        (∃ u2, db2.find? (fun v => v.id == userId) = some u2 ∧
          u2.passwordHash = hashPassword newPassword ∧ u2.refreshTokens = []) ∧
        (∀ (t : RefreshJwt) now2 sig2, t.userId = userId → ∃ e,
          (AuthService.refreshToken db2 t now2 sig2).result = .error e ∧
            e.statusCode = 401)) := by
  have hpu : (u.id == userId) = true := by
    have h := List.find?_some hfind
    simpa using h
  constructor
  · intro hcp
    simp only [AuthService.changePassword, hfind, hcp, Bool.not_false, if_true]
  · intro hcp
    set u1 : UserDoc :=
      { u with passwordHash := hashPassword newPassword, refreshTokens := [] } with hu1
    have heq : AuthService.changePassword db userId currentPassword newPassword now sig =
        ⟨.ok "Password changed successfully", saveUser db u1 now, sig⟩ := by
      simp only [AuthService.changePassword, hfind, hcp, Bool.not_true, hu1]
      rfl
    have hempty : (u1.preSave now).refreshTokens = [] := rfl
    have find2 : (saveUser db u1 now).find? (fun v => v.id == userId) =
        some (u1.preSave now) := by
      apply find?_saveUser _ db u u1 now hfind
      · rfl
      · simpa using hpu
    refine ⟨saveUser db u1 now, heq,
      ⟨u1.preSave now, find2, rfl, hempty⟩, ?_⟩
    intro t now2 sig2 ht
    apply refreshToken_401_of_not_stored
    intro u' hfind'
    rw [ht, find2] at hfind'
    rw [(Option.some.inj hfind').symm]
    apply isValidRefreshToken_false
    intro rt hrt
    rw [hempty] at hrt
    simp at hrt

/-- Witness for C5: changing baseUser's password with the correct current
password succeeds, stores the new hash, and empties the token list. -/
theorem c5_change_password_witness :
    ∃ db2,
      AuthService.changePassword [baseUser] "a" "pw" "nw" 0 0 =
        ⟨.ok "Password changed successfully", db2, 0⟩ ∧
      (∃ u2, db2.find? (fun v => v.id == "a") = some u2 ∧
        u2.passwordHash = hashPassword "nw" ∧ u2.refreshTokens = []) ∧
      (∀ (t : RefreshJwt) now2 sig2, t.userId = "a" → ∃ e,
        (AuthService.refreshToken db2 t now2 sig2).result = .error e ∧
          e.statusCode = 401) :=
  (c5_change_password [baseUser] "a" "pw" "nw" 0 0 baseUser (by decide)).2 (by decide)

/-- Counterexample to C6 as stated: the requested email belongs to emailOwner
and the requested username to usernameOwner, which is stored first; findOne
returns usernameOwner, whose email differs from the requested one, so the
username-collision error is reported although the email also collides. -/
theorem c6_conflict_precedence_counterexample :
    ((∃ v ∈ [usernameOwner, emailOwner], v.email = toLowerCase "taken@x.io") ∧
     (∃ v ∈ [usernameOwner, emailOwner], v.username = toLowerCase "carol")) ∧
    (AuthService.register [usernameOwner, emailOwner] "n" "carol" "taken@x.io"
      "pw" 0 0).result =
      .error ⟨"User with this username already exists", 409⟩ := by decide

/-- C6 amended: registering with an existing email or username (compared after
case folding) always fails with a 409 Conflict and leaves the collection
unchanged; the email-collision message is reported exactly when the first
stored account matching either field carries the requested email — in
particular whenever a single account holds both collisions — and the
username-collision message is reported otherwise. -/
theorem c6_register_uniqueness (db : List UserDoc)
    (name username email password : String) (now sig : Nat) :
    ((∃ v ∈ db, v.email = toLowerCase email ∨ v.username = toLowerCase username) →
      ∃ e, (AuthService.register db name username email password now sig).result =
          .error e ∧ e.statusCode = 409 ∧
        (AuthService.register db name username email password now sig).db = db) ∧
    (∀ u, db.find? (fun v => v.email == toLowerCase email ||
        v.username == toLowerCase username) = some u →
      (u.email = toLowerCase email →
        (AuthService.register db name username email password now sig).result =
          .error ⟨"User with this email already exists", 409⟩) ∧
      (u.email ≠ toLowerCase email →
        (AuthService.register db name username email password now sig).result =
          .error ⟨"User with this username already exists", 409⟩)) := by
  constructor
  · intro hex
    cases hf : db.find? (fun v => v.email == toLowerCase email ||
        v.username == toLowerCase username) with
    | none =>
      exfalso
      obtain ⟨v, hv, hvp⟩ := hex
      have := List.find?_eq_none.mp hf v hv
      simp only [Bool.or_eq_true, beq_iff_eq] at this
      tauto
    | some u =>
      simp only [AuthService.register, hf]
      by_cases hu : u.email = toLowerCase email
      · rw [if_pos (by simpa using hu)]
        exact ⟨_, rfl, rfl, rfl⟩
      · rw [if_neg (by simpa using hu)]
        exact ⟨_, rfl, rfl, rfl⟩
  · intro u hf
    constructor
    · intro hu
      simp only [AuthService.register, hf]
      rw [if_pos (by simpa using hu)]
    · intro hu
      simp only [AuthService.register, hf]
      rw [if_neg (by simpa using hu)]

/-- Witness for C6 amended: registering a fresh name with baseUser's email
fails with the email-conflict error and leaves the collection unchanged. -/
theorem c6_register_uniqueness_witness :
    (∃ e, (AuthService.register [baseUser] "n" "newname" "a@x.io" "pw" 0 0).result =
        .error e ∧ e.statusCode = 409 ∧
      (AuthService.register [baseUser] "n" "newname" "a@x.io" "pw" 0 0).db =
        [baseUser]) ∧
    (AuthService.register [baseUser] "n" "newname" "a@x.io" "pw" 0 0).result =
      .error ⟨"User with this email already exists", 409⟩ :=
  ⟨(c6_register_uniqueness [baseUser] "n" "newname" "a@x.io" "pw" 0 0).1
      ⟨baseUser, by decide, by decide⟩,
   ((c6_register_uniqueness [baseUser] "n" "newname" "a@x.io" "pw" 0 0).2 baseUser
      (by decide)).1 (by decide)⟩

/-- After saving a document, looking the collection up by that document's id
finds the saved document, provided some stored document carried the id. -/
theorem find?_id_saveUser_of_mem (db : List UserDoc) (w : UserDoc) (now : Nat)
    (uid : String) (hid : w.id = uid) (hmem : ∃ v ∈ db, v.id = uid) :
    (saveUser db w now).find? (fun v => v.id == uid) = some (w.preSave now) := by
  induction db with
  | nil => simp at hmem
  | cons a l ih =>
    simp only [saveUser, List.map_cons]
    by_cases haw : a.id = w.id
    · rw [if_pos haw]
      apply List.find?_cons_of_pos
      simp [UserDoc.preSave, hid]
    · rw [if_neg haw]
      rw [List.find?_cons_of_neg _ (by simpa [← hid] using haw)]
      apply ih
      rcases hmem with ⟨v, hv, hvw⟩
      rcases List.mem_cons.mp hv with h | h
      · exact absurd (by rw [← h, hvw]; exact hid.symm) haw
      · exact ⟨v, h, hvw⟩

/-- C7: verifyEmail succeeds exactly when some stored account holds the hash of
the presented token with an expiry strictly in the future; on success the
account is saved verified with both slots cleared, so presenting the same raw
token again fails with the 404 error; and a verification or reset token whose
expiry has passed always fails lookup.  The uniqueness hypothesis of the
second part states that only the found account stores this hash, which the
fresh-random-token model guarantees. -/
theorem c7_verify_email_single_use (db : List UserDoc) (raw : String) (now sig : Nat) :
    ((AuthService.verifyEmail db raw now sig).result.isOk = true ↔
      ∃ v ∈ db, v.emailVerificationToken = some (hashToken raw) ∧
        ∃ e, v.emailVerificationExpiry = some e ∧ now < e) ∧
    (∀ u, db.find? (verificationMatches (hashToken raw) now) = some u →
      (∀ v ∈ db, v.emailVerificationToken = some (hashToken raw) → v.id = u.id) →
      ∃ db2,
        AuthService.verifyEmail db raw now sig =
          ⟨.ok "Email verified successfully", db2, sig⟩ ∧
        (∃ u2, db2.find? (fun v => v.id == u.id) = some u2 ∧
          u2.emailVerified = true ∧ u2.emailVerificationToken = none ∧
          u2.emailVerificationExpiry = none) ∧
        (∀ now2 sig2, AuthService.verifyEmail db2 raw now2 sig2 =
          ⟨.error ⟨"Invalid or expired verification token. Please request a new verification email.",
            404⟩, db2, sig2⟩)) ∧
    ((∀ v ∈ db, ∀ e, v.emailVerificationExpiry = some e → e ≤ now) →
      (AuthService.verifyEmail db raw now sig).result =
        .error ⟨"Invalid or expired verification token. Please request a new verification email.",
          404⟩) ∧
    ((∀ v ∈ db, ∀ e, v.resetTokenExpiry = some e → e ≤ now) →
      ∀ password, (AuthService.resetPassword db raw password now sig).result =
        .error ⟨"Invalid or expired reset token", 404⟩) := by
  refine ⟨?_, ?_, ?_, ?_⟩
  · cases hf : db.find? (verificationMatches (hashToken raw) now) with
    | none =>
      simp only [AuthService.verifyEmail, hf]
      constructor
      · intro h
        simp [Except.isOk, Except.toBool] at h
      · rintro ⟨v, hv, htok, e, hexp, hlt⟩
        exfalso
        apply List.find?_eq_none.mp hf v hv
        simp [verificationMatches, htok, hexp, hlt]
    | some u =>
      simp only [AuthService.verifyEmail, hf]
      constructor
      · intro _
        have hp := List.find?_some hf
        have hm := List.mem_of_find?_eq_some hf
        simp only [verificationMatches, Bool.and_eq_true, beq_iff_eq] at hp
        obtain ⟨htok, hrest⟩ := hp
        cases hexp : u.emailVerificationExpiry with
        | none => rw [hexp] at hrest; simp at hrest
        | some e =>
          rw [hexp] at hrest
          simp only [decide_eq_true_eq] at hrest
          exact ⟨u, hm, htok, e, hexp, hrest⟩
      · intro _
        simp [Except.isOk, Except.toBool]
  · intro u hf huniq
    have hm := List.mem_of_find?_eq_some hf
    set u1 : UserDoc := { u with
      emailVerified := true
      emailVerificationExpiry := none
      emailVerificationToken := none } with hu1
    have heq : AuthService.verifyEmail db raw now sig =
        ⟨.ok "Email verified successfully", saveUser db u1 now, sig⟩ := by
      simp only [AuthService.verifyEmail, hf]
    have hfind2 : (saveUser db u1 now).find? (fun v => v.id == u.id) =
        some (u1.preSave now) :=
      find?_id_saveUser_of_mem db u1 now u.id rfl ⟨u, hm, rfl⟩
    have hnone : ∀ now2, (saveUser db u1 now).find?
        (verificationMatches (hashToken raw) now2) = none := by
      intro now2
      apply List.find?_eq_none.mpr
      intro v hv
      rcases mem_saveUser hv with h1 | ⟨h2, hne⟩
      · rw [h1]
        intro hcon
        simp [verificationMatches, UserDoc.preSave] at hcon
      · intro hcon
        simp only [verificationMatches, Bool.and_eq_true, beq_iff_eq] at hcon
        exact hne (huniq v h2 hcon.1)
    refine ⟨_, heq, ⟨u1.preSave now, hfind2, rfl, rfl, rfl⟩, ?_⟩
    intro now2 sig2
    simp only [AuthService.verifyEmail, hnone now2]
  · intro hall
    have hnone : db.find? (verificationMatches (hashToken raw) now) = none := by
      apply List.find?_eq_none.mpr
      intro v hv hcon
      simp only [verificationMatches, Bool.and_eq_true] at hcon
      obtain ⟨_, hrest⟩ := hcon
      cases hexp : v.emailVerificationExpiry with
      | none => rw [hexp] at hrest; simp at hrest
      | some e =>
        rw [hexp] at hrest
        simp only [decide_eq_true_eq] at hrest
        have := hall v hv e hexp
        omega
    simp only [AuthService.verifyEmail, hnone]
  · intro hall password
    have hnone : db.find? (resetMatches (hashToken raw) now) = none := by
      apply List.find?_eq_none.mpr
      intro v hv hcon
      simp only [resetMatches, Bool.and_eq_true] at hcon
      obtain ⟨_, hrest⟩ := hcon
      cases hexp : v.resetTokenExpiry with
      | none => rw [hexp] at hrest; simp at hrest
      | some e =>
        rw [hexp] at hrest
        simp only [decide_eq_true_eq] at hrest
        have := hall v hv e hexp
        omega
    simp only [AuthService.resetPassword, hnone]

/-- Witness for C7: verifying unverifiedUser's pending token at instant 10
succeeds, clears the slots, and a second presentation fails with 404. -/
theorem c7_verify_email_single_use_witness :
    ∃ db2,
      AuthService.verifyEmail [unverifiedUser] "raw" 10 0 =
        ⟨.ok "Email verified successfully", db2, 0⟩ ∧
      (∃ u2, db2.find? (fun v => v.id == unverifiedUser.id) = some u2 ∧
        u2.emailVerified = true ∧ u2.emailVerificationToken = none ∧
        u2.emailVerificationExpiry = none) ∧
      (∀ now2 sig2, AuthService.verifyEmail db2 "raw" now2 sig2 =
        ⟨.error ⟨"Invalid or expired verification token. Please request a new verification email.",
          404⟩, db2, sig2⟩) :=
  (c7_verify_email_single_use [unverifiedUser] "raw" 10 0).2.1 unverifiedUser
    (by decide) (by decide)

/-- C4: canLogin is true exactly when the account is active and verified, or
has an unexpired deletion request and is verified; and for an account with a
stamped deletion request, isDeletionExpired holds exactly when the current
instant is at least 30 days past the request. -/
theorem c4_canLogin_deletion_window (u : UserDocV2) (now : Nat) :
    (u.canLogin now = true ↔
      ((u.status = UserStatus.active ∧ u.emailVerified = true) ∨
       (u.status = UserStatus.deletionRequested ∧ u.isDeletionExpired now = false ∧
         u.emailVerified = true))) ∧
    (∀ t, u.deletionRequestedAt = some t →
      (u.isDeletionExpired now = true ↔ t + 30 * dayMs ≤ now)) := by
  constructor
  · unfold UserDocV2.canLogin
    cases hexp : u.isDeletionExpired now <;>
      cases hs : u.status <;> cases hev : u.emailVerified <;>
        simp [hs, hev, hexp]
  · intro t ht
    unfold UserDocV2.isDeletionExpired
    rw [ht]
    simp only [decide_eq_true_eq]
    omega

/-- Witness for C4: baseUserV2 requested deletion at instant 0, so the request
is expired at instant 30 days, and the account can still log in one instant
before that. -/
theorem c4_canLogin_deletion_window_witness :
    (baseUserV2.isDeletionExpired (30 * dayMs) = true ↔
      0 + 30 * dayMs ≤ 30 * dayMs) ∧
    (baseUserV2.canLogin 5 = true ↔
      ((baseUserV2.status = UserStatus.active ∧ baseUserV2.emailVerified = true) ∨
       (baseUserV2.status = UserStatus.deletionRequested ∧
         baseUserV2.isDeletionExpired 5 = false ∧ baseUserV2.emailVerified = true))) :=
  ⟨(c4_canLogin_deletion_window baseUserV2 (30 * dayMs)).2 0 (by decide),
   (c4_canLogin_deletion_window baseUserV2 5).1⟩

/-- C8: block sets the status to blocked and empties the refresh-token list,
deactivate sets the status to inactive and leaves the list untouched, and both
leave every field other than status, the deactivation-reason field and (for
block) the token list unchanged; the reason field is overwritten exactly when a
reason is supplied. -/
theorem c8_block_deactivate_frame (u : UserDocV2) (reason : Option String) :
    ((u.block reason).status = UserStatus.blocked ∧
     (u.block reason).refreshTokens = [] ∧
     (u.block reason).deactivationReason = reason.elim u.deactivationReason some ∧
     (u.block reason).id = u.id ∧ (u.block reason).name = u.name ∧
     (u.block reason).username = u.username ∧ (u.block reason).email = u.email ∧
     (u.block reason).passwordHash = u.passwordHash ∧
     (u.block reason).role = u.role ∧
     (u.block reason).emailVerified = u.emailVerified ∧
     (u.block reason).deletionRequestedAt = u.deletionRequestedAt ∧
     (u.block reason).deletionReason = u.deletionReason ∧
     (u.block reason).lastLogin = u.lastLogin ∧
     (u.block reason).onboardingCompleted = u.onboardingCompleted ∧
     (u.block reason).oauthProviders = u.oauthProviders ∧
     (u.block reason).emailVerificationToken = u.emailVerificationToken ∧
     (u.block reason).emailVerificationExpiry = u.emailVerificationExpiry ∧
     (u.block reason).resetToken = u.resetToken ∧
     (u.block reason).resetTokenExpiry = u.resetTokenExpiry) ∧
    ((u.deactivate reason).status = UserStatus.inactive ∧
     (u.deactivate reason).refreshTokens = u.refreshTokens ∧
     (u.deactivate reason).deactivationReason = reason.elim u.deactivationReason some ∧
     (u.deactivate reason).id = u.id ∧ (u.deactivate reason).name = u.name ∧
     (u.deactivate reason).username = u.username ∧
     (u.deactivate reason).email = u.email ∧
     (u.deactivate reason).passwordHash = u.passwordHash ∧
     (u.deactivate reason).role = u.role ∧
     (u.deactivate reason).emailVerified = u.emailVerified ∧
     (u.deactivate reason).deletionRequestedAt = u.deletionRequestedAt ∧
     (u.deactivate reason).deletionReason = u.deletionReason ∧
     (u.deactivate reason).lastLogin = u.lastLogin ∧
     (u.deactivate reason).onboardingCompleted = u.onboardingCompleted ∧
     (u.deactivate reason).oauthProviders = u.oauthProviders ∧
     (u.deactivate reason).emailVerificationToken = u.emailVerificationToken ∧
     (u.deactivate reason).emailVerificationExpiry = u.emailVerificationExpiry ∧
     (u.deactivate reason).resetToken = u.resetToken ∧
     (u.deactivate reason).resetTokenExpiry = u.resetTokenExpiry) := by
  cases reason <;> simp [UserDocV2.block, UserDocV2.deactivate, Option.elim]

/-- C9: during a refresh the new token is appended (and saved) before the
presented one is removed, so on an account already holding five entries whose
presented token is not the oldest, the oldest entry — a different, still-valid
token — is evicted: the resulting stored set is the old tail with the presented
token filtered out plus the new entry, and the oldest token is gone even though
it was neither presented nor expired. -/
theorem c9_refresh_append_before_remove_evicts_oldest
    (db : List UserDoc) (t : RefreshJwt) (u : UserDoc)
    (rt0 : RefreshTokenEntry) (rest : List RefreshTokenEntry) (now sig : Nat)
    (hfind : db.find? (fun v => v.id == t.userId) = some u)
    (hshape : u.refreshTokens = rt0 :: rest)
    (hlen : rest.length = 4)
    (hjwt : now < t.expiresAt)
    (hactive : u.isActive = true)
    (hmem : ∃ rt ∈ rest, rt.token = t ∧ now < rt.expiresAt)
    (hne : rt0.token ≠ t)
    (hunexp : ∀ rt ∈ u.refreshTokens, now < rt.expiresAt)
    (hnodup : ∀ rt ∈ rest, rt.token ≠ rt0.token)
    (hfresh : ∀ rt ∈ u.refreshTokens, rt.token.issuedSig < sig) :
    ∃ tokens db2,
      AuthService.refreshToken db t now sig = ⟨.ok tokens, db2, sig + 2⟩ ∧
      ∃ u2, db2.find? (fun v => v.id == t.userId) = some u2 ∧
        u2.refreshTokens =
          rest.filter (fun rt => rt.token != t) ++
            [⟨tokens.refreshToken, now, now + 30 * dayMs⟩] ∧
        (∀ rt ∈ u2.refreshTokens, rt.token ≠ rt0.token) := by
  have hvalid : u.isValidRefreshToken t now = true := by
    apply (isValidRefreshToken_iff u t now).mpr
    obtain ⟨rt, hrt, h1, h2⟩ := hmem
    exact ⟨rt, by rw [hshape]; exact List.mem_cons_of_mem _ hrt, h1, h2⟩
  have hpu : (u.id == t.userId) = true := by
    have h := List.find?_some hfind
    simpa using h
  have heq := refreshToken_success db t u now sig hfind hjwt hvalid hactive
  set r2 := JWTService.generateRefreshToken u.id now (sig + 1) with hr2
  set e2 : RefreshTokenEntry := ⟨r2, now, now + 30 * dayMs⟩ with he2
  set u1 := u.addRefreshToken r2 (now + 30 * dayMs) now with hu1
  set u3 := (u1.preSave now).removeRefreshToken t with hu3
  have hlen5 : 5 ≤ u.refreshTokens.length := by rw [hshape]; simp [hlen]
  have hu1tokens : u1.refreshTokens = rest ++ [e2] := by
    simp only [hu1, UserDoc.addRefreshToken, hshape, he2]
    rw [if_pos (by simp [hlen])]
    simp
  have hnowlt : now < now + 30 * dayMs := by simp [dayMs]
  have hall2 : ∀ rt ∈ rest ++ [e2], now < rt.expiresAt := by
    intro rt hrt
    rcases List.mem_append.mp hrt with h | h
    · exact hunexp rt (by rw [hshape]; exact List.mem_cons_of_mem _ h)
    · rw [List.mem_singleton.mp h, he2]
      exact hnowlt
  have hpresave : (u1.preSave now).refreshTokens = rest ++ [e2] := by
    rw [UserDoc.preSave_refreshTokens, hu1tokens]
    apply List.filter_eq_self.mpr
    intro a ha
    simpa using hall2 a ha
  have htne : r2 ≠ t := by
    obtain ⟨rt, hrt, h1, _⟩ := hmem
    have hlt := hfresh rt (by rw [hshape]; exact List.mem_cons_of_mem _ hrt)
    rw [h1] at hlt
    intro hcon
    have hsig : r2.issuedSig = t.issuedSig := by rw [hcon]
    simp only [hr2, JWTService.generateRefreshToken] at hsig
    omega
  have hremove : u3.refreshTokens = rest.filter (fun rt => rt.token != t) ++ [e2] := by
    rw [hu3, UserDoc.removeRefreshToken_refreshTokens, hpresave, List.filter_append]
    congr 1
    simp [he2, htne]
  have hfinal : (u3.preSave now).refreshTokens =
      rest.filter (fun rt => rt.token != t) ++ [e2] := by
    rw [UserDoc.preSave_refreshTokens, hremove]
    apply List.filter_eq_self.mpr
    intro a ha
    rcases List.mem_append.mp ha with h | h
    · have := hall2 a (List.mem_append.mpr (Or.inl (List.mem_of_mem_filter h)))
      simpa using this
    · rw [List.mem_singleton.mp h, he2]
      simpa using hnowlt
  have find1 : (saveUser db u1 now).find? (fun v => v.id == t.userId) =
      some (u1.preSave now) := by
    apply find?_saveUser _ db u u1 now hfind
    · rfl
    · simpa using hpu
  have find2 : (saveUser (saveUser db u1 now) u3 now).find? (fun v => v.id == t.userId) =
      some (u3.preSave now) := by
    apply find?_saveUser _ _ (u1.preSave now) u3 now find1
    · rfl
    · simpa using hpu
  refine ⟨_, _, heq, u3.preSave now, find2, hfinal, ?_⟩
  intro rt hrt
  rw [hfinal] at hrt
  rcases List.mem_append.mp hrt with h | h
  · exact hnodup rt (List.mem_of_mem_filter h)
  · rw [List.mem_singleton.mp h]
    have hlt0 := hfresh rt0 (by rw [hshape]; exact List.mem_cons_self rt0 rest)
    intro hcon
    have hsig : rt0.token.issuedSig = sig + 1 := by
      rw [← hcon]
      simp [he2, hr2, JWTService.generateRefreshToken]
    omega

/-- Witness for C9: fullUser holds five unexpired tokens; refreshing with the
second-oldest evicts the oldest token, signed at counter value 0, although it
was valid and not the token presented. -/
theorem c9_refresh_append_before_remove_evicts_oldest_witness :
    ∃ tokens db2,
      AuthService.refreshToken [fullUser] ⟨"a", 1, 100⟩ 1 5 = ⟨.ok tokens, db2, 5 + 2⟩ ∧
      ∃ u2, db2.find? (fun v => v.id == (RefreshJwt.mk "a" 1 100).userId) = some u2 ∧
        u2.refreshTokens =
          ([⟨⟨"a", 1, 100⟩, 0, 100⟩, ⟨⟨"a", 2, 100⟩, 0, 100⟩, ⟨⟨"a", 3, 100⟩, 0, 100⟩,
            ⟨⟨"a", 4, 100⟩, 0, 100⟩].filter
              (fun rt => rt.token != (⟨"a", 1, 100⟩ : RefreshJwt))) ++
            [⟨tokens.refreshToken, 1, 1 + 30 * dayMs⟩] ∧
        (∀ rt ∈ u2.refreshTokens,
          rt.token ≠ (RefreshTokenEntry.mk ⟨"a", 0, 100⟩ 0 100).token) :=
  c9_refresh_append_before_remove_evicts_oldest [fullUser] ⟨"a", 1, 100⟩ fullUser
    ⟨⟨"a", 0, 100⟩, 0, 100⟩
    [⟨⟨"a", 1, 100⟩, 0, 100⟩, ⟨⟨"a", 2, 100⟩, 0, 100⟩, ⟨⟨"a", 3, 100⟩, 0, 100⟩,
      ⟨⟨"a", 4, 100⟩, 0, 100⟩] 1 5
    (by decide) (by decide) (by decide) (by decide) (by decide) (by decide)
    (by decide) (by decide) (by decide) (by decide)

/-- C10: resendVerification and forgotPassword save the freshly generated
hashed token and its expiry before the email send is attempted; when the
notifier reports failure they raise a 500 error, yet the new hashed token and
expiry remain persisted — the stored state changed on the error path and a
previously stored (distinct) hash is gone. -/
theorem c10_token_persisted_on_send_failure (db : List UserDoc) (email : String)
    (now sig : Nat) (u : UserDoc)
    (hfind : db.find? (fun v => v.email == toLowerCase email) = some u) :
    (u.emailVerified = false →
      (AuthService.resendVerification db email false now sig).result =
        .error ⟨"Failed to send verification email.", 500⟩ ∧
      ∃ u2, (AuthService.resendVerification db email false now sig).db.find?
          (fun v => v.id == u.id) = some u2 ∧
        u2.emailVerificationToken = some (hashToken (generateSecureToken sig)) ∧
        u2.emailVerificationExpiry = some (now + emailVerificationExpiresMs) ∧
        (∀ h0, u.emailVerificationToken = some h0 →
          h0 ≠ hashToken (generateSecureToken sig) →
          u2.emailVerificationToken ≠ some h0)) ∧
    ((AuthService.forgotPassword db email false now sig).result =
        .error ⟨"Failed to send password reset email.", 500⟩ ∧
      ∃ u2, (AuthService.forgotPassword db email false now sig).db.find?
          (fun v => v.id == u.id) = some u2 ∧
        u2.resetToken = some (hashToken (generateSecureToken sig)) ∧
        u2.resetTokenExpiry = some (now + passwordResetExpiresMs) ∧
        (∀ h0, u.resetToken = some h0 →
          h0 ≠ hashToken (generateSecureToken sig) →
          u2.resetToken ≠ some h0)) := by
  have hm := List.mem_of_find?_eq_some hfind
  constructor
  · intro hev
    set u1 : UserDoc := { u with
      emailVerificationToken := some (generateVerificationToken now sig).hashedToken
      emailVerificationExpiry := some (generateVerificationToken now sig).expiresAt } with hu1
    have heq : AuthService.resendVerification db email false now sig =
        ⟨.error ⟨"Failed to send verification email.", 500⟩, saveUser db u1 now, sig + 1⟩ := by
      simp only [AuthService.resendVerification, hfind, hev, hu1]
      rfl
    rw [heq]
    refine ⟨rfl, u1.preSave now, ?_, rfl, rfl, ?_⟩
    · exact find?_id_saveUser_of_mem db u1 now u.id rfl ⟨u, hm, rfl⟩
    · intro h0 _ hne0 hcon
      apply hne0
      have : some (hashToken (generateSecureToken sig)) = some h0 := hcon
      exact (Option.some.inj this).symm
  · set u1 : UserDoc := { u with
      resetToken := some (generatePasswordResetToken now sig).hashedToken
      resetTokenExpiry := some (generatePasswordResetToken now sig).expiresAt } with hu1
    have heq : AuthService.forgotPassword db email false now sig =
        ⟨.error ⟨"Failed to send password reset email.", 500⟩, saveUser db u1 now, sig + 1⟩ := by
      simp only [AuthService.forgotPassword, hfind, hu1]
      rfl
    rw [heq]
    refine ⟨rfl, u1.preSave now, ?_, rfl, rfl, ?_⟩
    · exact find?_id_saveUser_of_mem db u1 now u.id rfl ⟨u, hm, rfl⟩
    · intro h0 _ hne0 hcon
      apply hne0
      have : some (hashToken (generateSecureToken sig)) = some h0 := hcon
      exact (Option.some.inj this).symm

/-- Witness for C10: on unverifiedUser with a failing notifier, both operations
error with 500 while the fresh hashed token and expiry are persisted. -/
theorem c10_token_persisted_on_send_failure_witness :
    ((AuthService.resendVerification [unverifiedUser] "a@x.io" false 7 3).result =
      .error ⟨"Failed to send verification email.", 500⟩ ∧
     ∃ u2, (AuthService.resendVerification [unverifiedUser] "a@x.io" false 7 3).db.find?
         (fun v => v.id == unverifiedUser.id) = some u2 ∧
       u2.emailVerificationToken = some (hashToken (generateSecureToken 3)) ∧
       u2.emailVerificationExpiry = some (7 + emailVerificationExpiresMs) ∧
       (∀ h0, unverifiedUser.emailVerificationToken = some h0 →
         h0 ≠ hashToken (generateSecureToken 3) →
         u2.emailVerificationToken ≠ some h0)) ∧
    ((AuthService.forgotPassword [unverifiedUser] "a@x.io" false 7 3).result =
      .error ⟨"Failed to send password reset email.", 500⟩ ∧
     ∃ u2, (AuthService.forgotPassword [unverifiedUser] "a@x.io" false 7 3).db.find?
         (fun v => v.id == unverifiedUser.id) = some u2 ∧
       u2.resetToken = some (hashToken (generateSecureToken 3)) ∧
       u2.resetTokenExpiry = some (7 + passwordResetExpiresMs) ∧
       (∀ h0, unverifiedUser.resetToken = some h0 →
         h0 ≠ hashToken (generateSecureToken 3) →
         u2.resetToken ≠ some h0)) :=
  ⟨(c10_token_persisted_on_send_failure [unverifiedUser] "a@x.io" 7 3 unverifiedUser
      (by decide)).1 (by decide),
   (c10_token_persisted_on_send_failure [unverifiedUser] "a@x.io" 7 3 unverifiedUser
      (by decide)).2⟩
